import Mathlib

/-!
Shallow embedding of the data-engine core of `src/script.js` (the
`DataViewer` class of the sync-status dashboard): CSV parsing, filtering,
sorting and pagination, plus the page-navigation state machine.

Modelling conventions:
* JS strings are Lean `String`s; all string helpers are written over
  `List Char` so that every definition reduces in the kernel.
* JS numbers occurring in the sort comparator are modelled exactly as
  decimals `m / 10^p` (structure `Dec` below); `parseFloat` is embedded as
  a decimal-prefix parser (IEEE-754 rounding and the `Infinity` literal are
  outside the model, and no claim depends on them).
* A JS row object is an association list from column name to cell value,
  in header order.
* `Array.prototype.sort` with a comparator is modelled as a stable sort
  (ES2019 requires sort stability); we use `List.insertionSort` on the
  relation `comparator a b ≤ 0`.
* DOM rendering and session storage are outside the model; methods are
  embedded by their effect on the application state (`ViewerState`).
-/

/-- The character-level trim used to embed JS `String.prototype.trim`
(whitespace stripped from both ends). -/
def trimChars (cs : List Char) : List Char :=
  ((cs.dropWhile Char.isWhitespace).reverse.dropWhile Char.isWhitespace).reverse

/-- Embeds JS `s.trim()`. -/
def jsTrim (s : String) : String :=
  String.mk (trimChars s.data)

/-- Accumulator for `splitLines`: splits on a newline character. -/
def splitLinesAux : List Char → List Char → List String
  | [], cur => [String.mk cur.reverse]
  | c :: rest, cur =>
    if c = '\n' then String.mk cur.reverse :: splitLinesAux rest []
    else splitLinesAux rest (c :: cur)

/-- Embeds JS `s.split('\n')` (used by `parseCSV`, src/script.js line 216). -/
def splitLines (s : String) : List String :=
  splitLinesAux s.data []

/-- Embeds JS `s.toLowerCase()` (ASCII case folding; the claims only use
ASCII data). -/
def jsToLower (s : String) : String :=
  String.mk (s.data.map Char.toLower)

/-- Embeds JS `s.includes(pat)`: `pat` occurs as a contiguous substring. -/
def strContains (s pat : String) : Bool :=
  (List.range (s.data.length + 1)).any fun i => List.isPrefixOf pat.data (s.data.drop i)

/-- A parsed CSV row: association list from column name to cell value, in
header order (JS builds `row[header] = values[index]` over an object). -/
abbrev Record := List (String × String)

/-- Recursion core of `parseCSVLine` (src/script.js lines 239-264): walks the
characters tracking `current` (the field being built) and `inQuotes`.
A `""` while inside quotes appends a literal quote and skips both characters
(the JS `i++`); any other quote toggles `inQuotes`; an unquoted comma ends the
field (trimmed); anything else is appended. -/
def parseCSVLineAux : List Char → String → Bool → List String
  | [], current, _ => [jsTrim current]
  | '"' :: '"' :: rest, current, true => parseCSVLineAux rest (current.push '"') true
  | '"' :: rest, current, inQuotes => parseCSVLineAux rest current (!inQuotes)
  | ',' :: rest, current, false => jsTrim current :: parseCSVLineAux rest "" false
  | c :: rest, current, inQuotes => parseCSVLineAux rest (current.push c) inQuotes

/-- Embeds `parseCSVLine(line)` (src/script.js lines 239-264). -/
def parseCSVLine (line : String) : List String :=
  parseCSVLineAux line.data "" false

/-- Builds the row object `{header₀: values₀, ...}` of `parseCSV`
(src/script.js lines 225-228). `values[index] || ''` is the identity here:
the index is in range (the caller checked the lengths) and the only falsy
string is `''` itself. -/
def buildRow (headers values : List String) : Record :=
  headers.zip values

/-- Embeds `parseCSV(csvText)` (src/script.js lines 215-234): trim, split into
lines, first line is the header, and each later line is kept exactly when its
parsed field count equals the header's field count. -/
def parseCSV (csvText : String) : List Record :=
  let lines := splitLines (jsTrim csvText)
  if lines.length < 2 then []
  else
    let headers := parseCSVLine (lines.headD "")
    (lines.drop 1).filterMap fun line =>
      let values := parseCSVLine line
      if values.length = headers.length then some (buildRow headers values) else none

/-- An exact JS decimal: the value `num / 10^pow`. `parseFloat` results and
comparator return values are represented this way (exact arithmetic in place
of IEEE-754 doubles; the sign of a comparison is what the sort consumes). -/
structure Dec where
  num : Int
  pow : Nat
deriving DecidableEq, Repr

/-- Exact subtraction of decimals (embeds the JS `aNum - bNum` of the sort
comparator, src/script.js line 395). -/
def Dec.sub (a b : Dec) : Dec :=
  ⟨a.num * 10 ^ b.pow - b.num * 10 ^ a.pow, a.pow + b.pow⟩

/-- Numeric value of a digit run, most significant first. -/
def digitsVal (cs : List Char) : Nat :=
  cs.foldl (fun acc c => acc * 10 + (c.toNat - 48)) 0

/-- Embeds JS `parseFloat` on the decimal fragment: skip leading whitespace,
optional sign, digits with an optional fraction (at least one digit in total),
optional exponent (consumed only if it has at least one digit); the longest
valid prefix is parsed and trailing garbage is ignored; `none` plays NaN. -/
def parseFloat (s : String) : Option Dec :=
  let cs := s.data.dropWhile Char.isWhitespace
  let sign : Int := if cs.headD ' ' = '-' then -1 else 1
  let cs1 := if cs.headD ' ' = '-' ∨ cs.headD ' ' = '+' then cs.tail else cs
  let intDigits := cs1.takeWhile Char.isDigit
  let r1 := cs1.dropWhile Char.isDigit
  let fracDigits := if r1.headD ' ' = '.' then r1.tail.takeWhile Char.isDigit else []
  let r2 := if r1.headD ' ' = '.' then r1.tail.dropWhile Char.isDigit else r1
  if intDigits = [] ∧ fracDigits = [] then none
  else
    let mant : Int := sign * (digitsVal (intDigits ++ fracDigits) : Int)
    let fpow : Nat := fracDigits.length
    let hasExp := r2.headD ' ' = 'e' ∨ r2.headD ' ' = 'E'
    let r3 := if hasExp then r2.tail else []
    let esign : Int := if r3.headD ' ' = '-' then -1 else 1
    let r4 := if r3.headD ' ' = '-' ∨ r3.headD ' ' = '+' then r3.tail else r3
    let expDigits := r4.takeWhile Char.isDigit
    if hasExp ∧ expDigits ≠ [] then
      let e : Int := esign * (digitsVal expDigits : Int)
      if 0 ≤ e then some ⟨mant * 10 ^ e.toNat, fpow⟩ else some ⟨mant, fpow + e.natAbs⟩
    else some ⟨mant, fpow⟩

/-- Token for the numeric-aware string comparison: a maximal digit run
(compared by value) or a single other character. -/
inductive NumTok where
  | num (v : Nat)
  | ch (c : Char)
deriving DecidableEq, Repr

/-- Tokenizes a string into digit runs and single characters; the `Option Nat`
accumulates the digit run in progress. -/
def numTokensAux : List Char → Option Nat → List NumTok
  | [], none => []
  | [], some v => [.num v]
  | c :: cs, none =>
    if c.isDigit then numTokensAux cs (some (c.toNat - 48))
    else .ch c :: numTokensAux cs none
  | c :: cs, some v =>
    if c.isDigit then numTokensAux cs (some (v * 10 + (c.toNat - 48)))
    else .num v :: .ch c :: numTokensAux cs none

/-- Lexicographic comparison of token sequences: digit runs by numeric value,
other characters by code point (model of the ICU collation: a digit run sorts
before any non-digit character). -/
def numTokCompare : List NumTok → List NumTok → Int
  | [], [] => 0
  | [], _ :: _ => -1
  | _ :: _, [] => 1
  | .num va :: as, .num vb :: bs =>
    if va < vb then -1 else if vb < va then 1 else numTokCompare as bs
  | .num _ :: _, .ch _ :: _ => -1
  | .ch _ :: _, .num _ :: _ => 1
  | .ch a :: as, .ch b :: bs =>
    if a = b then numTokCompare as bs
    else if a.toNat < b.toNat then -1 else 1

/-- Embeds JS `aVal.localeCompare(bVal, undefined, { numeric: true })`
(src/script.js line 399): numeric-substring-aware string comparison, so that
for example "item2" sorts before "item10". -/
def localeCompareNumeric (a b : String) : Int :=
  numTokCompare (numTokensAux a.data none) (numTokensAux b.data none)

/-- Embeds the sort comparator body (src/script.js lines 386-401) on the two
cell strings: if both `parseFloat` results are numbers, the (direction-signed)
numeric difference; otherwise the locale comparison, negated for descending. -/
def compareVals (sortDirection : String) (aVal bVal : String) : Dec :=
  match parseFloat aVal, parseFloat bVal with
  | some aNum, some bNum =>
    if sortDirection = "asc" then Dec.sub aNum bNum else Dec.sub bNum aNum
  | _, _ =>
    let comparison := localeCompareNumeric aVal bVal
    if sortDirection = "asc" then ⟨comparison, 0⟩ else ⟨-comparison, 0⟩

/-- The cell string fed to the comparator: `a[sortColumn]?.toString() || ''`
(src/script.js lines 387-388); a missing cell becomes the empty string. -/
def cellStr (row : Record) (col : String) : String :=
  (List.lookup col row).getD ""

/-- The "`a` may stay before `b`" relation induced by the comparator:
comparator value at most zero (`num ≤ 0` decides the sign of `num / 10^pow`
since the denominator is positive). -/
def sortRel (sortDirection col : String) (a b : Record) : Prop :=
  (compareVals sortDirection (cellStr a col) (cellStr b col)).num ≤ 0

instance instDecidableSortRel (sortDirection col : String) :
    DecidableRel (sortRel sortDirection col) :=
  fun a b => Int.decLe (compareVals sortDirection (cellStr a col) (cellStr b col)).num 0

/-- Embeds `filtered.sort(comparator)` (src/script.js lines 386-401) as a
stable sort by the comparator relation. -/
def jsSort (sortDirection col : String) (l : List Record) : List Record :=
  List.insertionSort (sortRel sortDirection col) l

/-- Embeds the row predicate of the search filter (src/script.js lines
373-381): with a column filter, test that column's value (a missing value
matches nothing, the JS `?.` chain yields `undefined`, which is falsy);
otherwise test every value of the row. -/
def rowMatches (searchTerm columnFilter : String) (row : Record) : Bool :=
  if columnFilter ≠ "" then
    match List.lookup columnFilter row with
    | some v => strContains (jsToLower v) searchTerm
    | none => false
  else
    (row.map Prod.snd).any fun v => strContains (jsToLower v) searchTerm

/-- The application state of `DataViewer` (src/script.js lines 10-17):
the loaded dataset, the derived filtered/sorted dataset, and the view
settings. `itemsPerPage = -1` is the "show all" sentinel; `sortDirection`
is the string `"asc"` or `"desc"` as in the source. -/
structure ViewerState where
  data : List Record
  filteredData : List Record
  currentPage : Int
  itemsPerPage : Int
  sortColumn : Option String
  sortDirection : String
  searchTerm : String
  columnFilter : String
deriving DecidableEq, Repr

/-- The constructor state (src/script.js lines 10-17). -/
def initialState : ViewerState :=
  ⟨[], [], 1, 25, none, "asc", "", ""⟩

/-- Embeds `filterData()` (src/script.js lines 368-407): copy the dataset,
apply the search filter when the term is truthy, sort when `sortColumn` is
truthy (JS truthiness: the empty string is falsy), store the result in
`filteredData`. Rendering calls are DOM-only. -/
def filterData (s : ViewerState) : ViewerState :=
  let filtered :=
    if s.searchTerm ≠ "" then
      s.data.filter fun row => rowMatches s.searchTerm s.columnFilter row
    else s.data
  let sorted :=
    match s.sortColumn with
    | some col => if col = "" then filtered else jsSort s.sortDirection col filtered
    | none => filtered
  { s with filteredData := sorted }

/-- Embeds `Math.ceil(a / b)` on integers with `b ≠ 0`
(`⌈a/b⌉ = -⌊-a/b⌋`, and `Int.fdiv` is floor division). -/
def jsCeilDiv (a b : Int) : Int :=
  -(Int.fdiv (-a) b)

/-- The `totalPages` of `updatePagination()` (src/script.js line 453):
1 in "show all" mode, otherwise `Math.ceil(totalItems / itemsPerPage)`
with no minimum applied. -/
def totalPagesOf (s : ViewerState) : Int :=
  if s.itemsPerPage = -1 then 1
  else jsCeilDiv (s.filteredData.length : Int) s.itemsPerPage

/-- The `startItem` of the finite branch of `updatePagination()`
(src/script.js line 459). -/
def startItemOf (s : ViewerState) : Int :=
  if s.filteredData.length = 0 then 0 else (s.currentPage - 1) * s.itemsPerPage + 1

/-- The `endItem` of the finite branch of `updatePagination()`
(src/script.js line 460). -/
def endItemOf (s : ViewerState) : Int :=
  min (s.currentPage * s.itemsPerPage) (s.filteredData.length : Int)

/-- Embeds JS `Array.prototype.slice(start, stop)` with clamping and
negative-index-from-the-end semantics. -/
def jsSlice (l : List Record) (start stop : Int) : List Record :=
  let len : Int := l.length
  let s := if start < 0 then max (len + start) 0 else min start len
  let e := if stop < 0 then max (len + stop) 0 else min stop len
  (l.drop s.toNat).take (e - s).toNat

/-- The rows rendered by `renderTable()` (src/script.js lines 412-446): the
empty-data branch renders only a "No data found" placeholder; otherwise the
slice of the current page (`-1` meaning the whole dataset). -/
def visibleRows (s : ViewerState) : List Record :=
  if s.filteredData.isEmpty then []
  else
    let startIndex : Int := if s.itemsPerPage = -1 then 0 else (s.currentPage - 1) * s.itemsPerPage
    let endIndex : Int := if s.itemsPerPage = -1 then (s.filteredData.length : Int) else startIndex + s.itemsPerPage
    jsSlice s.filteredData startIndex endIndex

/-- Embeds `goToPage(pageNum)` (src/script.js lines 545-552): sets the page
unconditionally (no clamping); the rest is rendering. -/
def goToPage (pageNum : Int) (s : ViewerState) : ViewerState :=
  { s with currentPage := pageNum }

/-- Embeds `previousPage()` (src/script.js lines 557-561). -/
def previousPage (s : ViewerState) : ViewerState :=
  if 1 < s.currentPage then goToPage (s.currentPage - 1) s else s

/-- Embeds `nextPage()` (src/script.js lines 566-571): note the raw
`Math.ceil(filteredData.length / itemsPerPage)` with no `-1` special case. -/
def nextPage (s : ViewerState) : ViewerState :=
  let totalPages := jsCeilDiv (s.filteredData.length : Int) s.itemsPerPage
  if s.currentPage < totalPages then goToPage (s.currentPage + 1) s else s

/-- Embeds `handleSearch(term)` (src/script.js lines 340-344). -/
def handleSearch (term : String) (s : ViewerState) : ViewerState :=
  filterData { s with searchTerm := jsToLower term, currentPage := 1 }

/-- Embeds `handleColumnFilter(column)` (src/script.js lines 349-353). -/
def handleColumnFilter (column : String) (s : ViewerState) : ViewerState :=
  filterData { s with columnFilter := column, currentPage := 1 }

/-- Embeds `handleEntriesChange(value)` (src/script.js lines 358-363); the
DOM passes the option strings "-1", "10", ... which the source converts with
`parseInt`, modelled as the integer itself. -/
def handleEntriesChange (value : Int) (s : ViewerState) : ViewerState :=
  { s with itemsPerPage := value, currentPage := 1 }

/-- Embeds `handleSort(column)` (src/script.js lines 309-319): clicking the
active column flips the direction, clicking a new column selects it
ascending; then the data is refiltered/resorted. -/
def handleSort (column : String) (s : ViewerState) : ViewerState :=
  let s1 :=
    if s.sortColumn = some column then
      { s with sortDirection := if s.sortDirection = "asc" then "desc" else "asc" }
    else
      { s with sortColumn := some column, sortDirection := "asc" }
  filterData s1

/-- The user events that reach the state (`bindEvents`, src/script.js
lines 79-101). -/
inductive Event where
  | goToPage (pageNum : Int)
  | previousPage
  | nextPage
  | handleSearch (term : String)
  | handleColumnFilter (column : String)
  | handleEntriesChange (value : Int)
  | handleSort (column : String)
deriving DecidableEq, Repr

/-- One step of the page-navigation state machine: dispatches an event to the
corresponding handler. -/
def step (e : Event) (s : ViewerState) : ViewerState :=
  match e with
  | .goToPage n => goToPage n s
  | .previousPage => previousPage s
  | .nextPage => nextPage s
  | .handleSearch term => handleSearch term s
  | .handleColumnFilter c => handleColumnFilter c s
  | .handleEntriesChange v => handleEntriesChange v s
  | .handleSort c => handleSort c s

/-- Embeds the state effect of a successful `loadData()` (src/script.js
lines 186-210): parse the CSV, then `filterData()`. -/
def loadState (text : String) : ViewerState :=
  filterData { initialState with data := parseCSV text }

/-- A concrete one-row state in "show all" mode with an out-of-range
requested page, used to instantiate the pagination theorems. -/
def showAllExample : ViewerState :=
  { initialState with itemsPerPage := -1, filteredData := [[("a", "1")]], currentPage := 99 }

/-! ## Helper lemmas -/

/-- A `filterMap` whose function is an if-some-none is a `filter` followed by
a `map`. -/
theorem filterMap_ite_eq_filter_map {α β : Type} (p : α → Prop) [DecidablePred p]
    (g : α → β) (l : List α) :
    (l.filterMap fun x => if p x then some (g x) else none) =
      (l.filter fun x => decide (p x)).map g := by
  induction l with
  | nil => rfl
  | cons a t ih =>
    by_cases h : p a
    · simp [List.filterMap_cons, List.filter_cons, h, ih]
    · simp [List.filterMap_cons, List.filter_cons, h, ih]

/-- Slicing a list from `0` to its length returns the list. -/
theorem jsSlice_zero_length (l : List Record) : jsSlice l 0 (l.length : Int) = l := by
  simp only [jsSlice]
  rw [if_neg (by omega), if_neg (by omega), min_self]
  rw [min_eq_left (by omega)]
  simp

/-! ## Claim theorems -/

/-- Claim C2 (counterexample): the spec's round-trip example
`parse('h\n"a,b","c""d"')` with the single-column header `h` yields NO
records at all: the data line parses into two fields, which does not match
the one-field header, so `parseCSV` silently drops the row and the result is
the empty dataset, not records exhibiting the quoting behaviour. -/
theorem parseCSV_quote_example_yields_no_records :
    parseCSV "h\n\"a,b\",\"c\"\"d\"" = [] := by decide

/-- Claim C2 (amended): the quote-aware line splitter itself behaves as
stated — the quoted comma does not split the field, a doubled quote becomes
one literal quote, and whitespace at field boundaries is trimmed — but on the
spec's example input the single data row has two fields against the
one-column header `h`, so `parseCSV` drops it and yields the empty dataset;
with a two-column header the same line does round-trip into a record. -/
theorem parseCSVLine_quote_behaviour :
    parseCSVLine "\"a,b\",\"c\"\"d\"" = ["a,b", "c\"d"] ∧
    parseCSV "h\n\"a,b\",\"c\"\"d\"" = [] ∧
    parseCSV "h1,h2\n\"a,b\",\"c\"\"d\"" = [[("h1", "a,b"), ("h2", "c\"d")]] ∧
    parseCSVLine " a , b " = ["a", "b"] := by decide

/-- Claim C4: a data line contributes a record to `parseCSV` exactly when its
parsed field count equals the header's field count — the output is precisely
the in-order map over the lines that pass the field-count filter, and every
mismatched line is silently dropped (no error value exists; `parseCSV` is a
total function). In particular, with header `a,b` the row `1,2,3` is
excluded, leaving an empty dataset. -/
theorem parseCSV_field_count_filter :
    (∀ text : String,
      parseCSV text =
        (((splitLines (jsTrim text)).drop 1).filter fun line =>
            decide ((parseCSVLine line).length =
              (parseCSVLine ((splitLines (jsTrim text)).headD "")).length)).map
          fun line =>
            buildRow (parseCSVLine ((splitLines (jsTrim text)).headD ""))
              (parseCSVLine line)) ∧
    parseCSV "a,b\n1,2,3" = [] := by
  constructor
  · intro text
    simp only [parseCSV]
    by_cases h : (splitLines (jsTrim text)).length < 2
    · rw [if_pos h, List.drop_eq_nil_of_le (by omega)]
      rfl
    · rw [if_neg h]
      exact filterMap_ite_eq_filter_map _ _ _
  · decide

/-- Claim C6: sorting is a permutation — `jsSort` (the embedded
`filtered.sort(comparator)`) returns a list with exactly the same multiset of
rows as its input, adding and removing nothing, for every dataset, sort
column and direction. -/
theorem jsSort_perm (sortDirection col : String) (l : List Record) :
    (jsSort sortDirection col l).Perm l ∧
      ((jsSort sortDirection col l : List Record) : Multiset Record) = (l : Multiset Record) := by
  refine ⟨List.perm_insertionSort _ _, ?_⟩
  exact Multiset.coe_eq_coe.mpr (List.perm_insertionSort _ _)

/-- Claim C8: a row whose filtered cell value is missing is treated as not
matching the search term (the JS optional-chain yields `undefined`, which is
falsy); the embedded filter is a total Lean function, so no input can make it
throw. -/
theorem rowMatches_missing_cell (searchTerm columnFilter : String) (row : Record)
    (hcol : columnFilter ≠ "") (hmiss : List.lookup columnFilter row = none) :
    rowMatches searchTerm columnFilter row = false := by
  simp [rowMatches, hcol, hmiss]

/-- Claim C8 witness: a concrete row with no value for the filtered column
`b` does not match. -/
theorem rowMatches_missing_cell_witness :
    rowMatches "x" "b" [("a", "x")] = false :=
  rowMatches_missing_cell "x" "b" [("a", "x")] (by decide) (by decide)

/-- Claim C10: requesting a sort on column `c` flips the direction between
ascending and descending (keeping the column) when `c` is already the active
sort column, and otherwise selects `c` with the direction reset to
ascending. -/
theorem handleSort_toggle (s : ViewerState) (column : String) :
    (s.sortColumn = some column →
      (step (Event.handleSort column) s).sortColumn = s.sortColumn ∧
      (step (Event.handleSort column) s).sortDirection =
        (if s.sortDirection = "asc" then "desc" else "asc")) ∧
    (s.sortColumn ≠ some column →
      (step (Event.handleSort column) s).sortColumn = some column ∧
      (step (Event.handleSort column) s).sortDirection = "asc") := by
  constructor
  · intro h
    simp [step, handleSort, filterData, h]
  · intro h
    simp [step, handleSort, filterData, h]

/-- Claim C10 witness: from the initial state (no active sort column),
sorting by `a` selects column `a` ascending. -/
theorem handleSort_toggle_witness :
    (step (Event.handleSort "a") initialState).sortColumn = some "a" ∧
    (step (Event.handleSort "a") initialState).sortDirection = "asc" :=
  (handleSort_toggle initialState "a").2 (by decide)

/-- Claim C1 (counterexample): in a reachable state with the finite positive
page size 25 and an empty filtered dataset (a search that matches nothing),
the computed total page count is 0 — the code applies no "minimum 1", so the
claimed `totalPages = 1` for an empty dataset is false. -/
theorem totalPages_empty_counterexample :
    0 < (step (Event.handleSearch "zzz") (loadState "a\n1")).itemsPerPage ∧
    (step (Event.handleSearch "zzz") (loadState "a\n1")).filteredData = [] ∧
    totalPagesOf (step (Event.handleSearch "zzz") (loadState "a\n1")) = 0 := by
  decide

/-- Claim C1 (amended): for a finite positive `itemsPerPage` the total page
count is exactly `ceil(totalItems / itemsPerPage)` with NO minimum applied:
for an empty dataset it is 0 (not 1), while `startItem = endItem = 0` and the
visible page is the empty sequence as claimed. -/
theorem totalPages_ceiling (s : ViewerState) (hipp : 0 < s.itemsPerPage)
    (hcp : 1 ≤ s.currentPage) :
    totalPagesOf s = jsCeilDiv (s.filteredData.length : Int) s.itemsPerPage ∧
    (s.filteredData = [] →
      totalPagesOf s = 0 ∧ startItemOf s = 0 ∧ endItemOf s = 0 ∧
      visibleRows s = []) := by
  have hne : s.itemsPerPage ≠ -1 := by omega
  constructor
  · simp [totalPagesOf, hne]
  · intro he
    refine ⟨?_, ?_, ?_, ?_⟩
    · simp [totalPagesOf, hne, he, jsCeilDiv]
    · simp [startItemOf, he]
    · have : (0 : Int) ≤ s.currentPage * s.itemsPerPage :=
        mul_nonneg (by omega) (by omega)
      simp [endItemOf, he]
      omega
    · simp [visibleRows, he]

/-- Claim C1 witness: the amended facts at the concrete reachable empty-search
state. -/
theorem totalPages_ceiling_witness :
    totalPagesOf (step (Event.handleSearch "zzz") (loadState "a\n1")) = 0 ∧
    startItemOf (step (Event.handleSearch "zzz") (loadState "a\n1")) = 0 ∧
    endItemOf (step (Event.handleSearch "zzz") (loadState "a\n1")) = 0 ∧
    visibleRows (step (Event.handleSearch "zzz") (loadState "a\n1")) = [] :=
  (totalPages_ceiling _ (by decide) (by decide)).2 (by decide)

/-- Claim C3 (counterexample): `currentPage` does NOT change only via
goToPage/previousPage/nextPage — from a reachable state on page 2, a search
event resets the page to 1. -/
theorem currentPage_search_counterexample :
    (step (Event.goToPage 2) (loadState "a\n1")).currentPage = 2 ∧
    (step (Event.handleSearch "x")
        (step (Event.goToPage 2) (loadState "a\n1"))).currentPage = 1 := by
  decide

/-- Claim C3 (amended): `currentPage` changes only via the navigation events
goToPage/previousPage/nextPage or by being reset to 1 by a search, column
filter or page-size change; `previousPage` is a no-op (the whole state is
unchanged) at page 1, and `nextPage` is a no-op at (or beyond) the last
page. -/
theorem currentPage_navigation (s : ViewerState) (e : Event) :
    ((step e s).currentPage = s.currentPage ∨
      (∃ n, e = Event.goToPage n) ∨ e = Event.previousPage ∨ e = Event.nextPage ∨
      (step e s).currentPage = 1) ∧
    (s.currentPage ≤ 1 → step Event.previousPage s = s) ∧
    (jsCeilDiv (s.filteredData.length : Int) s.itemsPerPage ≤ s.currentPage →
      step Event.nextPage s = s) := by
  refine ⟨?_, ?_, ?_⟩
  · cases e with
    | goToPage n => exact Or.inr (Or.inl ⟨n, rfl⟩)
    | previousPage => exact Or.inr (Or.inr (Or.inl rfl))
    | nextPage => exact Or.inr (Or.inr (Or.inr (Or.inl rfl)))
    | handleSearch t => exact Or.inr (Or.inr (Or.inr (Or.inr rfl)))
    | handleColumnFilter c => exact Or.inr (Or.inr (Or.inr (Or.inr rfl)))
    | handleEntriesChange v => exact Or.inr (Or.inr (Or.inr (Or.inr rfl)))
    | handleSort c =>
      left
      by_cases h : s.sortColumn = some c <;> simp [step, handleSort, filterData, h]
  · intro h
    simp only [step, previousPage]
    rw [if_neg (by omega)]
  · intro h
    simp only [step, nextPage]
    rw [if_neg (by omega)]

/-- Claim C3 witness: at the initial state (page 1 of an empty dataset), both
`previousPage` and `nextPage` leave the state unchanged. -/
theorem currentPage_navigation_witness :
    step Event.previousPage initialState = initialState ∧
    step Event.nextPage initialState = initialState :=
  ⟨(currentPage_navigation initialState Event.previousPage).2.1 (by decide),
   (currentPage_navigation initialState Event.nextPage).2.2 (by decide)⟩

/-- Claim C5: the sort comparator compares two cell values numerically — as
the direction-signed exact difference — exactly when both values parse as
numbers, and otherwise falls back to the numeric-aware locale string
comparison, negated for descending; and ascending sort of the values
`["10","2","1"]` yields `["1","2","10"]` (numeric, not lexicographic,
order). -/
theorem compareVals_numeric_first :
    (∀ sortDirection a b qa qb, parseFloat a = some qa → parseFloat b = some qb →
      compareVals sortDirection a b =
        (if sortDirection = "asc" then Dec.sub qa qb else Dec.sub qb qa)) ∧
    (∀ sortDirection a b, parseFloat a = none ∨ parseFloat b = none →
      compareVals sortDirection a b =
        (if sortDirection = "asc" then (⟨localeCompareNumeric a b, 0⟩ : Dec)
         else ⟨-localeCompareNumeric a b, 0⟩)) ∧
    jsSort "asc" "v" [[("v", "10")], [("v", "2")], [("v", "1")]] =
      [[("v", "1")], [("v", "2")], [("v", "10")]] := by
  refine ⟨?_, ?_, by decide⟩
  · intro sortDirection a b qa qb ha hb
    simp [compareVals, ha, hb]
  · intro sortDirection a b h
    rcases h with h | h
    · rcases hb : parseFloat b with _ | qb <;> simp [compareVals, h, hb]
    · rcases ha : parseFloat a with _ | qa <;> simp [compareVals, h, ha]

/-- Claim C5 witness: `"10"` and `"2"` both parse as numbers, so the
ascending comparator value is the exact difference `10 - 2`. -/
theorem compareVals_numeric_first_witness :
    compareVals "asc" "10" "2" = Dec.sub ⟨10, 0⟩ ⟨2, 0⟩ := by
  have h := compareVals_numeric_first.1 "asc" "10" "2" ⟨10, 0⟩ ⟨2, 0⟩
    (by decide) (by decide)
  simpa using h

/-- Claim C7: with the "show all" sentinel `itemsPerPage = -1`, the total
page count is 1 and the visible page is the entire (filtered) dataset — for
every state, hence regardless of the requested `currentPage`. -/
theorem showAll_single_page (s : ViewerState) (h : s.itemsPerPage = -1) :
    totalPagesOf s = 1 ∧ visibleRows s = s.filteredData := by
  constructor
  · simp [totalPagesOf, h]
  · by_cases he : s.filteredData.isEmpty
    · rw [List.isEmpty_iff] at he
      simp [visibleRows, he]
    · simp only [visibleRows, he, if_false, Bool.false_eq_true, if_neg, h, if_pos]
      exact jsSlice_zero_length _

/-- Claim C7 witness: a concrete one-row state on requested page 99 in
"show all" mode still reports one page containing the whole dataset. -/
theorem showAll_single_page_witness :
    totalPagesOf showAllExample = 1 ∧ visibleRows showAllExample = [[("a", "1")]] :=
  showAll_single_page showAllExample (by decide)

/-- Claim C9: filtering and sorting leave the original dataset untouched —
`filterData` returns a state whose `data` field is the very same sequence of
records, and its derived `filteredData` is a fresh sequence drawn from those
records (every derived row is a row of the original dataset). -/
theorem filterData_preserves_dataset (s : ViewerState) :
    (filterData s).data = s.data ∧
    ∀ r ∈ (filterData s).filteredData, r ∈ s.data := by
  refine ⟨rfl, ?_⟩
  intro r hr
  simp only [filterData, jsSort] at hr
  have hfil : ∀ x, x ∈ (if s.searchTerm ≠ "" then
        s.data.filter fun row => rowMatches s.searchTerm s.columnFilter row
      else s.data) → x ∈ s.data := by
    intro x hx
    split at hx
    · exact List.mem_of_mem_filter hx
    · exact hx
  rcases hcol : s.sortColumn with _ | col
  · simp only [hcol] at hr
    exact hfil r hr
  · simp only [hcol] at hr
    by_cases hc : col = ""
    · rw [if_pos hc] at hr
      exact hfil r hr
    · rw [if_neg hc] at hr
      exact hfil r ((List.perm_insertionSort _ _).mem_iff.mp hr)

/-- Claim C9 witness: refiltering the loaded one-row state keeps its dataset
and its derived row is a dataset row. -/
theorem filterData_preserves_dataset_witness :
    (filterData (loadState "a\n1")).data = (loadState "a\n1").data ∧
    [("a", "1")] ∈ (loadState "a\n1").data :=
  ⟨(filterData_preserves_dataset (loadState "a\n1")).1,
   (filterData_preserves_dataset (loadState "a\n1")).2 [("a", "1")] (by decide)⟩
